import Mathlib

/-!
Shallow embedding of the playback-engine core in `src/player.c` (forked-daapd).

The player is a single-threaded command-dispatched state machine.  All mutable
playback state owned by the player thread is collected in one `Engine` record;
external collaborators (database/transcoder open results, transcoder seeks,
the monotonic clock, the local audio sink, the remote RAOP driver, the shuffle
RNG) are modelled as oracle inputs collected in an `Oracles` record, so every
embedded operation is a total function from engine state and oracles to a
result.  `none` results mark executions on which the C code dereferences a
NULL pointer (undefined behaviour), so safety claims can be stated.

Machine integers: the C fields are `uint64_t`; they are embedded as `Nat`
with explicit wrap-around (`u64`, `u64sub`) at the operations where the C
code can overflow or underflow.  C's truncating signed division is `Int.tdiv`.
-/

namespace Daapd

/-- Number of samples per AirTunes v2 packet (`AIRTUNES_V2_PACKET_SAMPLES`
from raop.h).  The concrete value is immaterial to the theorems below, which
treat it symbolically; 352 is the AirTunes v2 packet size. -/
def AIRTUNES_V2_PACKET_SAMPLES : Nat := 352

/-- Modulus of the C type `uint64_t`. -/
def U64MOD : Nat := 18446744073709551616

/-- Reduction into `uint64_t` range. -/
def u64 (n : Nat) : Nat := n % U64MOD

/-- Subtraction with `uint64_t` wrap-around, as performed by C `a - b` on
`uint64_t` operands already reduced below `2^64`. -/
def u64sub (a b : Nat) : Nat := (a % U64MOD + (U64MOD - b % U64MOD)) % U64MOD

/-- Player state enumeration (`enum play_status` of player.h):
PLAY_STOPPED / PLAY_PAUSED / PLAY_PLAYING. -/
inductive PlayState
  | stopped
  | paused
  | playing
deriving DecidableEq, Repr

/-- Repeat mode (`enum repeat_mode`): REPEAT_OFF / REPEAT_SONG / REPEAT_ALL. -/
inductive RepeatMode
  | off
  | song
  | all
deriving DecidableEq, Repr

/-- Local audio sink state, abstracting `enum laudio_state` of laudio.h:
`closed` is LAUDIO_CLOSED, `opened` is LAUDIO_OPEN, `started` covers the
states carrying the LAUDIO_F_STARTED flag, `stopping` is LAUDIO_STOPPING. -/
inductive LaudioState
  | closed
  | opened
  | started
  | stopping
deriving DecidableEq, Repr

/-- Playback clock sync source (`enum player_sync_source`). -/
inductive SyncSource
  | clock
  | laudio
deriving DecidableEq, Repr

/-- A `struct timespec` value: seconds and nanoseconds as signed integers. -/
structure Timespec where
  sec : Int
  nsec : Int
deriving DecidableEq, Repr

/-- One queue entry (`struct player_source`).  The two cyclic rings
(`pl_prev`/`pl_next` and `shuffle_prev`/`shuffle_next`) are represented
outside the item, as key orderings in the `Engine`; `ctx` (the transcoder
handle) is abstracted to the fact of being open; `play_next` holds the key of
the scheduled successor, if any. -/
structure SourceItem where
  id : Nat
  streamStart : Nat
  outputStart : Nat
  endPos : Nat
  ctx : Bool
  playNext : Option Nat
deriving DecidableEq, Repr

instance : Inhabited SourceItem := ⟨⟨0, 0, 0, 0, false, none⟩⟩

/-- A known remote receiver (`struct raop_device`).  `password` records
whether a stored password is available (the C field is a string pointer);
`session` records whether an active session handle is present. -/
structure RaopDevice where
  devId : Nat
  selected : Bool
  advertised : Bool
  hasPassword : Bool
  password : Bool
  session : Bool
deriving DecidableEq, Repr

instance : Inhabited RaopDevice := ⟨⟨0, false, false, false, false, false⟩⟩

/-- All mutable playback state owned by the player thread.  The playlist ring
is `plOrder` (keys into `items`, listed from `source_head`), the shuffle ring
is `shOrder` (listed from `shuffle_head`); `curPlaying`/`curStreaming` are
keys.  `edges` records the successive values written to the DACP update
channel by `status_update`, and `updateFdSet` whether an update fd is
registered (`update_fd >= 0`). -/
structure Engine where
  playerState : PlayState
  repeatMode : RepeatMode
  shuffle : Bool
  items : List SourceItem
  plOrder : List Nat
  shOrder : List Nat
  curPlaying : Option Nat
  curStreaming : Option Nat
  pbPos : Nat
  pbPosStamp : Timespec
  lastRtptime : Nat
  audioBufLen : Nat
  syncSource : SyncSource
  laudioStatus : LaudioState
  laudioSelected : Bool
  raopSessions : Nat
  devices : List RaopDevice
  cmdRet : Int
  raopPending : Nat
  updateFdSet : Bool
  edges : List PlayState
deriving DecidableEq, Repr

/-- Outcomes of the external collaborators, supplied as inputs.  `openOk k`
is whether `db_file_fetch_byid`+`transcode_setup` succeed for item key `k`;
`seekZeroOk` is the result sign of `transcode_seek(ctx, 0)`; `seekMs ms` is
the actually-seeked position returned by `transcode_seek(ctx, ms)` (`none`
for failure); `shuf` is the Fisher-Yates permutation produced by the shuffle
RNG; `clockTs` is the `clock_gettime(CLOCK_MONOTONIC)` reading (`none` for
failure); `laudioPos` is `laudio_get_pos()`; `raopStartOk i` is whether
`raop_device_start`/`raop_device_probe` succeeds synchronously for device id
`i`; `laudioOpenOk`/`laudioStartOk`/`laudioActOk` are local-sink call
results; `timerOk` is the playback-timer setup result; `flushPending` is the
count returned by `raop_flush`. -/
structure Oracles where
  openOk : Nat → Bool
  seekZeroOk : Bool
  seekMs : Nat → Option Nat
  shuf : List Nat → List Nat
  clockTs : Option Timespec
  laudioPos : Nat
  raopStartOk : Nat → Bool
  laudioOpenOk : Bool
  laudioStartOk : Bool
  laudioActOk : Bool
  timerOk : Bool
  flushPending : Nat

/-- Item lookup by key (total, with a default). -/
def getItem (st : Engine) (k : Nat) : SourceItem := st.items.getD k default

/-- Item update by key. -/
def setItem (st : Engine) (k : Nat) (it : SourceItem) : Engine :=
  { st with items := st.items.set k it }

/-- Item field update by key. -/
def modItem (st : Engine) (k : Nat) (f : SourceItem → SourceItem) : Engine :=
  setItem st k (f (getItem st k))

/-- Head element of a ring order list (`source_head` / `shuffle_head`). -/
def ringHead (order : List Nat) : Nat := order.headD 0

/-- Successor of key `k` in the cyclic ring given by `order`
(`ps->pl_next` / `ps->shuffle_next`). -/
def ringNext (order : List Nat) (k : Nat) : Nat :=
  match order.findIdx? (fun x => x = k) with
  | some i => order.getD ((i + 1) % order.length) 0
  | none => k

/-- Rotation of a ring order list so that key `k` becomes the head; models
re-pointing `shuffle_head` at an existing ring node. -/
def rotateTo (order : List Nat) (k : Nat) : List Nat :=
  match order.findIdx? (fun x => x = k) with
  | some i => order.drop i ++ order.take i
  | none => order

/-- Keys tried by the do-while loop of `source_next`/`source_prev`: starting
candidate first, following the ring, stopping when the wrap limit would be
revisited (the limit itself is tried only when it is the starting
candidate). -/
def ringCandidates (order : List Nat) (start lim : Nat) : List Nat :=
  match rotateTo order start with
  | [] => []
  | s :: rest => s :: rest.takeWhile (fun x => x ≠ lim)

/-- Effective repeat mode computed at the top of `source_next`
(player.c lines 609-624); `single` is `source_head == source_head->pl_next`
(the playlist has exactly one item). -/
def eff_r_mode (force : Bool) (mode : RepeatMode) (single : Bool) : RepeatMode :=
  let r1 := if force ∧ mode = RepeatMode.song then RepeatMode.all else mode
  if r1 = RepeatMode.all ∧ single then RepeatMode.song
  else if ¬force ∧ r1 = RepeatMode.off ∧ single then RepeatMode.song
  else r1

/-- Effective repeat mode as worded in the specification: if `force` and the
mode is Song, treat as All; then if the queue has exactly one item and the
(possibly updated) mode is All, treat as Song; and if not `force`, the mode
is Off and the queue has one item, treat as Song; otherwise the configured
mode. -/
def eff_r_mode_spec (force : Bool) (mode : RepeatMode) (single : Bool) : RepeatMode :=
  let m1 := if force ∧ mode = RepeatMode.song then RepeatMode.all else mode
  if single ∧ m1 = RepeatMode.all then RepeatMode.song
  else if ¬force ∧ mode = RepeatMode.off ∧ single then RepeatMode.song
  else m1

/-- Microsecond delta computed by `player_get_current_pos_clock`
(player.c line 216): seconds difference times 10^6 plus the nanosecond
difference divided by 1000 with C's truncating signed division, the result
converted to `uint64_t`. -/
def pos_clock_delta (stamp ts : Timespec) : Nat :=
  ((((ts.sec - stamp.sec) * 1000000 + Int.tdiv (ts.nsec - stamp.nsec) 1000)) %
    (U64MOD : Int)).toNat

/-- Clock-source position query `player_get_current_pos_clock`
(player.c lines 202-241), with the clock reading supplied as an oracle:
returns `(pos, pbPos', stamp')` on success, `none` when `clock_gettime`
fails (the only failure). -/
def player_get_current_pos_clock (pbPos : Nat) (stamp : Timespec)
    (tsOpt : Option Timespec) (commit : Bool) : Option (Nat × Nat × Timespec) :=
  match tsOpt with
  | none => none
  | some ts =>
    let delta := pos_clock_delta stamp ts
    let delta2 := u64 (delta * 44100) / 1000000
    let pos := u64 (pbPos + delta2)
    if commit then some (pos, pos, ts) else some (pos, pbPos, stamp)

/-- Position formula as worded in the specification claim: `pb_pos` plus
`floor(delta_us * 44100 / 1000000)` where `delta_us` is the elapsed time
from `pb_pos_stamp` to `ts` in (whole) microseconds. -/
def pos_clock_words (pbPos : Nat) (stamp ts : Timespec) : Nat :=
  let elapsedNs : Nat :=
    ((ts.sec * 1000000000 + ts.nsec) - (stamp.sec * 1000000000 + stamp.nsec)).toNat
  pbPos + (elapsedNs / 1000 * 44100) / 1000000

/-- Status notification `status_update` (player.c lines 176-199): stores the
new player state and, when an update fd is registered, writes exactly one
edge to the update channel. -/
def status_update (s : PlayState) (st : Engine) : Engine :=
  let st1 := { st with playerState := s }
  if st1.updateFdSet then { st1 with edges := st1.edges ++ [s] } else st1

/-- Worker of `source_stop`, walking the `play_next` chain with fuel (the
chain is acyclic in every state the C code constructs; the fuel only makes
the recursion structural). -/
def source_stop_go (fuel : Nat) (st : Engine) (ps : Option Nat) : Engine :=
  match fuel with
  | 0 => st
  | fuel' + 1 =>
    match ps with
    | none => st
    | some k =>
      let it := getItem st k
      let st1 := setItem st k { it with ctx := false, playNext := none }
      source_stop_go fuel' st1 it.playNext

/-- Chain teardown `source_stop` (player.c lines 461-479): walks the
`play_next` chain from `ps`, closing any open transcoder context and
clearing each `play_next` pointer. -/
def source_stop (st : Engine) (ps : Option Nat) : Engine :=
  source_stop_go (st.items.length + 1) st ps

/-- Head of the play chain: `cur_playing` when set, else `cur_streaming`
(the `if (cur_playing) ... else ... cur_streaming` idiom used throughout
player.c). -/
def play_chain_start (st : Engine) : Option Nat :=
  match st.curPlaying with
  | some k => some k
  | none => st.curStreaming

/-- Item open `source_open` (player.c lines 558-598): resets
`stream_start`/`output_start`/`end`/`play_next`, then opens the transcoder;
on failure (unknown id, disabled file, transcoder error — the `openOk`
oracle) the context is left untouched. -/
def source_open (st : Engine) (k : Nat) (o : Oracles) : Engine × Bool :=
  let st1 := modItem st k (fun it =>
    { it with streamStart := 0, outputStart := 0, endPos := 0, playNext := none })
  if o.openOk k then (modItem st1 k (fun it => { it with ctx := true }), true)
  else (st1, false)

/-- Reshuffle `source_reshuffle` (player.c lines 542-555): produce a fresh
shuffle ring over the playlist items (the permutation is the RNG oracle) and
point `shuffle_head` at `cur_streaming` if one exists, else at the new
ring's first element. -/
def source_reshuffle (st : Engine) (o : Oracles) : Engine :=
  match st.plOrder with
  | [] => st
  | _ =>
    let newOrder := o.shuf st.plOrder
    match st.curStreaming with
    | some k => { st with shOrder := rotateTo newOrder k }
    | none => { st with shOrder := newOrder }

/-- Full stop `playback_stop` (player.c lines 1520-1548): close the local
sink, stop remote streaming, tear down the timer, free open contexts along
the play chain, clear both cursors, drain the audio buffer and emit the
Stopped notification.  Always returns 0. -/
def playback_stop (st : Engine) : Int × Engine :=
  let st1 := if st.laudioStatus ≠ LaudioState.closed
             then { st with laudioStatus := LaudioState.closed } else st
  let st2 := source_stop st1 (play_chain_start st1)
  let st3 := { st2 with curPlaying := none, curStreaming := none, audioBufLen := 0 }
  (0, status_update PlayState.stopped st3)

/-- Open-attempt loop of `source_next`/`source_prev`: try each candidate in
turn (each failed attempt still resets the candidate's positions), stopping
at the first success. -/
def open_loop_go : List Nat → Engine → Oracles → Engine × Option Nat
  | [], st, _ => (st, none)
  | k :: rest, st, o =>
    let (st1, ok) := source_open st k o
    if ok then (st1, some k) else open_loop_go rest st1 o

/-- Shared tail of `source_next` (player.c lines 679-709): run the open
loop over the ring candidates; on failure return -1; on success link the new
item as `play_next` of the old streaming cursor `cur0` (unless forced) and
make it `cur_streaming`. -/
def source_next_open (st : Engine) (cur0 : Option Nat) (force : Bool)
    (ord : List Nat) (start lim : Nat) (o : Oracles) : Int × Engine :=
  let lp := open_loop_go (ringCandidates ord start lim) st o
  match lp.2 with
  | none => (-1, lp.1)
  | some k =>
    let st3 := match force, cur0 with
               | false, some kc => modItem lp.1 kc (fun it => { it with playNext := some k })
               | _, _ => lp.1
    (0, { st3 with curStreaming := some k })

/-- Queue advance `source_next` (player.c lines 600-710).  Returns `none`
when the C code dereferences NULL (`source_head` with an empty queue, or
`cur_streaming` in the REPEAT_SONG branch); otherwise `some (ret, st')`
mirroring the C return value. -/
def source_next (st : Engine) (force : Bool) (o : Oracles) : Option (Int × Engine) :=
  match st.plOrder with
  | [] => none
  | _ :: _ =>
    let head := if st.shuffle then ringHead st.shOrder else ringHead st.plOrder
    let single := st.plOrder.length = 1
    let rm := eff_r_mode force st.repeatMode single
    let ps0 := match st.curStreaming with
               | none => head
               | some k => if st.shuffle then ringNext st.shOrder k else ringNext st.plOrder k
    match rm with
    | RepeatMode.song =>
      match st.curStreaming with
      | none => none
      | some k =>
        if (getItem st k).ctx then
          if o.seekZeroOk then some (0, st) else some (-1, st)
        else
          let op := source_open st k o
          if op.2 then some (0, op.1) else some (-1, op.1)
    | RepeatMode.all =>
      if st.shuffle then
        let doReshuffle := st.curStreaming.isSome ∧ ps0 = ringHead st.shOrder
        let st1 := if doReshuffle then source_reshuffle st o else st
        let ps1 := if doReshuffle then ringHead st1.shOrder else ps0
        some (source_next_open st1 st.curStreaming force st1.shOrder ps1
                (ringHead st1.shOrder) o)
      else
        some (source_next_open st st.curStreaming force st.plOrder ps0 ps0 o)
    | RepeatMode.off =>
      if force ∧ ps0 = head then some (0, (playback_stop st).2)
      else
        let ord := if st.shuffle then st.shOrder else st.plOrder
        some (source_next_open st st.curStreaming force ord ps0 head o)

/-- Position query dispatch `player_get_current_pos` (player.c lines
271-284), no-commit and commit forms, over the engine state.  Under LAUDIO
sync the position comes from `laudio_get_pos` (oracle) and the timestamp
from the monotonic clock. -/
def player_get_current_pos (st : Engine) (o : Oracles) (commit : Bool) :
    Option (Nat × Engine) :=
  match st.syncSource with
  | SyncSource.clock =>
    match player_get_current_pos_clock st.pbPos st.pbPosStamp o.clockTs commit with
    | none => none
    | some (pos, p', s') => some (pos, { st with pbPos := p', pbPosStamp := s' })
  | SyncSource.laudio =>
    match o.clockTs with
    | none => none
    | some ts =>
      let pos := o.laudioPos
      if commit then some (pos, { st with pbPos := pos, pbPosStamp := ts })
      else some (pos, st)

/-- Crossover loop of `source_check` (player.c lines 853-882): advance
`cur_playing` along `play_next` while the position has passed the current
item's end, stopping playback at end of playlist or (repeat off) at
wraparound.  Returns the state, the number of items crossed, and whether
playback was stopped. -/
def source_check_adv (fuel : Nat) (st : Engine) (pos : Nat) (rm : RepeatMode)
    (head : Nat) (i : Nat) : Engine × Nat × Bool :=
  match fuel with
  | 0 => (st, i, false)
  | fuel + 1 =>
    match st.curPlaying with
    | none => (st, i, false)
    | some kp =>
      let it := getItem st kp
      if it.endPos ≠ 0 ∧ pos > it.endPos then
        if it.playNext = none ∨ (rm = RepeatMode.off ∧ it.playNext = some head) then
          ((playback_stop st).2, i + 1, true)
        else
          match it.playNext with
          | none => (st, i, false)
          | some kn =>
            let st1 := { st with curPlaying := some kn }
            let st2 := modItem st1 kn (fun n =>
              { n with streamStart := u64 (it.endPos + 1), outputStart := u64 (it.endPos + 1) })
            let st3 := if it.ctx
                       then modItem st2 kp (fun p => { p with ctx := false, playNext := none })
                       else st2
            source_check_adv fuel st3 pos rm head (i + 1)
      else (st, i, false)

/-- Pump-side cursor maintenance `source_check` (player.c lines 780-892):
obtain the current position (no commit); promote `cur_streaming` to
`cur_playing` once the position reaches `output_start`; on passing an item's
end either restart it (effective repeat Song) or advance along `play_next`,
possibly stopping.  Returns 0 (and the untouched state) when there is no
streaming cursor or the clock fails. -/
def source_check (st : Engine) (o : Oracles) : Nat × Engine :=
  match st.curStreaming with
  | none => (0, st)
  | some ks =>
    match player_get_current_pos st o false with
    | none => (0, st)
    | some (pos, stp) =>
      match stp.curPlaying with
      | none =>
        if pos ≥ (getItem stp ks).outputStart then
          (pos, status_update PlayState.playing { stp with curPlaying := some ks })
        else (pos, stp)
      | some kp =>
        let it := getItem stp kp
        if it.endPos = 0 ∨ pos < it.endPos then (pos, stp)
        else
          let single := stp.plOrder.length = 1
          let rm := if stp.repeatMode = RepeatMode.all ∧ single
                    then RepeatMode.song else stp.repeatMode
          if rm = RepeatMode.song then
            let (st2, kcur) :=
              match it.playNext with
              | some kn =>
                let sa := { stp with curPlaying := some kn }
                let sb := if it.ctx
                          then modItem sa kp (fun p => { p with ctx := false, playNext := none })
                          else sa
                (sb, kn)
              | none => (stp, kp)
            let st3 := modItem st2 kcur (fun c =>
              { c with streamStart := u64 (it.endPos + 1), outputStart := u64 (it.endPos + 1) })
            let st4 := modItem st3 kp (fun p => { p with endPos := 0 })
            (pos, status_update PlayState.playing st4)
          else
            let head := if stp.shuffle then ringHead stp.shOrder else ringHead stp.plOrder
            let (st2, i, stopped) :=
              source_check_adv (stp.items.length + 1) stp pos rm head 0
            if stopped then (pos, st2)
            else if i > 0 then (pos, status_update PlayState.playing st2)
            else (pos, st2)

/-- Bottom half `playback_next_bh` (player.c lines 1836-1866): stop the play
chain, advance forcibly, restage the new streaming item at the next packet
boundary and silently (without a notification) enter Paused; the subsequent
start emits the status update. -/
def playback_next_bh (st : Engine) (o : Oracles) : Option (Int × Engine) :=
  let st1 := source_stop st (play_chain_start st)
  match source_next st1 true o with
  | none => none
  | some (r, st2) =>
    if r < 0 then some (-1, (playback_stop st2).2)
    else if st2.playerState = PlayState.stopped then some (-1, st2)
    else
      match st2.curStreaming with
      | none => none
      | some k =>
        let st3 := modItem st2 k (fun it =>
          { it with streamStart := u64 (st2.lastRtptime + AIRTUNES_V2_PACKET_SAMPLES),
                    outputStart := u64 (st2.lastRtptime + AIRTUNES_V2_PACKET_SAMPLES) })
        some (0, { st3 with curPlaying := none, playerState := PlayState.paused })

/-- Bottom half `playback_seek_bh` (player.c lines 1868-1904): clear the
current item's end marker, seek the transcoder to the commanded millisecond
position, set `stream_start := last_rtptime + PACKET_SAMPLES - p_ms*44100/1000`
and `output_start := last_rtptime + PACKET_SAMPLES` from the actually-seeked
position `p_ms`, make the item `cur_streaming`, clear `cur_playing`, and
silently enter Paused. -/
def playback_seek_bh (st : Engine) (ms : Nat) (o : Oracles) : Option (Int × Engine) :=
  match play_chain_start st with
  | none => none
  | some k =>
    let st1 := modItem st k (fun it => { it with endPos := 0 })
    match o.seekMs ms with
    | none => some (-1, (playback_stop st1).2)
    | some p =>
      let st2 := modItem st1 k (fun it =>
        { it with
            streamStart := u64sub (u64 (st1.lastRtptime + AIRTUNES_V2_PACKET_SAMPLES))
                                  (p * 44100 / 1000),
            outputStart := u64 (st1.lastRtptime + AIRTUNES_V2_PACKET_SAMPLES) })
      some (0, { st2 with curStreaming := some k, curPlaying := none,
                          playerState := PlayState.paused })

/-- Bottom half `playback_pause_bh` (player.c lines 1906-1944): read back the
pause position from the item's end marker, clear it, seek the transcoder to
`(end - stream_start) * 1000 / 44100` milliseconds, restage the item from
the actually-seeked position and emit the Paused notification. -/
def playback_pause_bh (st : Engine) (o : Oracles) : Option (Int × Engine) :=
  match play_chain_start st with
  | none => none
  | some k =>
    let it := getItem st k
    let pos := it.endPos
    let st1 := modItem st k (fun i => { i with endPos := 0 })
    let off := u64sub pos it.streamStart
    let ms := off * 1000 / 44100
    match o.seekMs ms with
    | none => some (-1, (playback_stop st1).2)
    | some p =>
      let st2 := modItem st1 k (fun i =>
        { i with
            streamStart := u64sub (u64 (st1.lastRtptime + AIRTUNES_V2_PACKET_SAMPLES))
                                  (p * 44100 / 1000),
            outputStart := u64 (st1.lastRtptime + AIRTUNES_V2_PACKET_SAMPLES) })
      let st3 := { st2 with curStreaming := some k, curPlaying := none }
      some (0, status_update PlayState.paused st3)

/-- Front half `playback_pause` (player.c lines 1946-1998), parameterized by
the bottom half it completes with (`playback_pause_bh`, `playback_seek_bh`
via `ms`, etc.): capture the current position in the item's end marker,
flush the remote devices (`flushPending` launches counted in
`cmd.raop_pending`), stop the local sink and the timer, prune any scheduled
successor, keep the item as `cur_streaming` and drain the audio buffer.
When no flushes are pending the bottom half runs synchronously.  The C
`laudio_stop` is modelled as moving the sink to `stopping`. -/
def playback_pause (st : Engine) (o : Oracles)
    (bh : Engine → Oracles → Option (Int × Engine)) : Option (Int × Engine) :=
  let pr := source_check st o
  let pos := pr.1
  let st1 := pr.2
  if pos = 0 then some (playback_stop st1)
  else if st1.playerState = PlayState.stopped then some (-1, st1)
  else
    match play_chain_start st1 with
    | none => none
    | some k =>
      let st2 := modItem st1 k (fun it => { it with endPos := pos })
      let st2 := { st2 with raopPending := o.flushPending }
      let st2 := if st2.laudioStatus ≠ LaudioState.closed
                 then { st2 with laudioStatus := LaudioState.stopping } else st2
      let st2 := match (getItem st2 k).playNext with
                 | some kn => source_stop st2 (some kn)
                 | none => st2
      let st2 := { st2 with curPlaying := none, curStreaming := some k }
      let st2 := modItem st2 k (fun it => { it with playNext := none })
      let st2 := { st2 with audioBufLen := 0 }
      if st2.raopPending > 0 then some (1, st2)
      else bh st2 o

/-- Bottom half `playback_start_bh` (player.c lines 1551-1663): require at
least one output, start the local sink if it is merely open, take the
timestamp that seeds the playback timer and `pb_pos_stamp`, arm the timer,
start remote playback and emit the Playing notification; any failure tears
playback down via `playback_stop`. -/
def playback_start_bh (st : Engine) (o : Oracles) : Int × Engine :=
  if st.laudioStatus = LaudioState.closed ∧ st.raopSessions = 0 then
    (-1, (playback_stop st).2)
  else
    let laudioAtt : Option Engine :=
      if st.laudioStatus = LaudioState.opened then
        if o.laudioStartOk then some { st with laudioStatus := LaudioState.started }
        else none
      else some st
    match laudioAtt with
    | none => (-1, (playback_stop st).2)
    | some st1 =>
      match o.clockTs with
      | none => (-1, (playback_stop st1).2)
      | some ts =>
        let st2 := { st1 with pbPosStamp := ts }
        if o.timerOk then (0, status_update PlayState.playing st2)
        else (-1, (playback_stop st2).2)

/-- Tail of `playback_start` shared by all cursor-setup paths (player.c
lines 1755-1801): open the local sink if selected and closed, launch RAOP
sessions on selected devices without one (each synchronous launch success
counted in `cmd.raop_pending`), fail if no output at all, return 1 (async)
when device launches are pending, otherwise run the bottom half. -/
def playback_start_tail (st : Engine) (o : Oracles) (idxOut : Option Nat) :
    Option (Int × Engine × Option Nat) :=
  let laudioAtt : Option Engine :=
    if st.laudioSelected ∧ st.laudioStatus = LaudioState.closed then
      if o.laudioOpenOk then some { st with laudioStatus := LaudioState.opened }
      else none
    else some st
  match laudioAtt with
  | none => some (-1, st, idxOut)
  | some st1 =>
    let pending := (st1.devices.filter
      (fun d => d.selected ∧ d.session = false ∧ o.raopStartOk d.devId)).length
    let st2 := { st1 with raopPending := pending }
    if st2.laudioStatus = LaudioState.closed ∧ pending = 0 ∧ st2.raopSessions = 0 then
      some (-1, st2, idxOut)
    else if pending > 0 then some (1, st2, idxOut)
    else
      let (r, st3) := playback_start_bh st2 o
      some (r, st3, idxOut)

/-- Start command `playback_start` (player.c lines 1665-1802).  `idxArg`
models the `uint32_t *idx_id` argument (`none` is a NULL pointer); the
result carries the final `*idx_id` value.  Empty queue fails with -1; an
already-Playing engine reports the current id and re-emits the status; the
cursor is repositioned when an index was passed; `none` marks NULL
dereference (the Playing branch with no cursor at all, or `source_next`
undefined behaviour). -/
def playback_start (st : Engine) (idxArg : Option Nat) (o : Oracles) :
    Option (Int × Engine × Option Nat) :=
  match st.plOrder with
  | [] => some (-1, st, idxArg)
  | _ :: _ =>
    if st.playerState = PlayState.playing then
      match idxArg with
      | none => some (0, status_update st.playerState st, none)
      | some _ =>
        match st.curPlaying with
        | some kp => some (0, status_update st.playerState st, some (getItem st kp).id)
        | none =>
          match st.curStreaming with
          | some ks => some (0, status_update st.playerState st, some (getItem st ks).id)
          | none => none
    else
      let stp := { st with
        pbPos := u64sub (u64 (st.lastRtptime + AIRTUNES_V2_PACKET_SAMPLES)) 88200 }
      match idxArg with
      | some n =>
        let sa := source_stop stp (play_chain_start stp)
        let sb := { sa with curPlaying := none, curStreaming := none }
        let sc := if sb.shuffle then
                    let sr := source_reshuffle sb o
                    { sr with curStreaming := some (ringHead sr.shOrder) }
                  else { sb with curStreaming := some (ringHead sb.plOrder) }
        let sdPair : Engine × Nat :=
          if n > 0 then
            let k := sc.plOrder.getD (n % sc.plOrder.length) 0
            let sd := { sc with curStreaming := some k }
            (if sd.shuffle then { sd with shOrder := rotateTo sd.shOrder k } else sd, 0)
          else (sc, n)
        let sd := sdPair.1
        match sd.curStreaming with
        | none => none
        | some k =>
          let (se, ok) := source_open sd k o
          if ok = false then some (-1, se, some sdPair.2)
          else
            let sf := modItem se k (fun it =>
              { it with streamStart := u64 (se.lastRtptime + AIRTUNES_V2_PACKET_SAMPLES),
                        outputStart := u64 (se.lastRtptime + AIRTUNES_V2_PACKET_SAMPLES) })
            playback_start_tail sf o (some (getItem sf k).id)
      | none =>
        match stp.curStreaming with
        | some _ => playback_start_tail stp o none
        | none =>
          let sa := if stp.shuffle then source_reshuffle stp o else stp
          match source_next sa false o with
          | none => none
          | some (r, sb) =>
            if r < 0 then some (-1, sb, none)
            else
              match sb.curStreaming with
              | none => none
              | some k =>
                let sc := modItem sb k (fun it =>
                  { it with streamStart := u64 (sb.lastRtptime + AIRTUNES_V2_PACKET_SAMPLES),
                            outputStart := u64 (sb.lastRtptime + AIRTUNES_V2_PACKET_SAMPLES) })
                playback_start_tail sc o none

/-- Per-device step of the `speaker_set` loop (player.c lines 2142-2196),
folded left over `dev_list` with the engine as accumulator and the processed
devices collected in order.  A selected device with a password requirement
but no stored password sets `cmd.ret := -2` and is skipped; otherwise it is
marked selected and, lacking a session, activated (probe when stopped,
start when playing — the `raopStartOk` oracle), a synchronous activation
failure deselecting it and recording -1 unless -2 is already set.  A
deselected device with a session is shut down asynchronously (RAOP
deactivation always launches). -/
def speaker_set_dev (ids : List Nat) (o : Oracles) (acc : Engine × List RaopDevice)
    (rd : RaopDevice) : Engine × List RaopDevice :=
  let st := acc.1
  let done := acc.2
  if rd.devId ∈ ids then
    if rd.hasPassword ∧ rd.password = false then
      ({ st with cmdRet := -2 }, done ++ [rd])
    else
      let rd1 := { rd with selected := true }
      if rd.session = false then
        if o.raopStartOk rd.devId then
          ({ st with raopPending := st.raopPending + 1 }, done ++ [rd1])
        else
          ({ st with cmdRet := if st.cmdRet = -2 then st.cmdRet else -1 },
           done ++ [{ rd1 with selected := false }])
      else (st, done ++ [rd1])
  else
    let rd1 := { rd with selected := false }
    if rd.session then
      ({ st with raopPending := st.raopPending + 1 }, done ++ [rd1])
    else (st, done ++ [rd1])

/-- Device outcome of one `speaker_set` pass, as a per-device function: the
device field updates of `speaker_set_dev` depend only on the device itself,
the id set and the activation oracle. -/
def speaker_set_dev_new (ids : List Nat) (o : Oracles) (rd : RaopDevice) : RaopDevice :=
  if rd.devId ∈ ids then
    if rd.hasPassword ∧ rd.password = false then rd
    else if rd.session = false ∧ o.raopStartOk rd.devId = false then
      { rd with selected := false }
    else { rd with selected := true }
  else { rd with selected := false }

/-- Local-audio section of `speaker_set` (player.c lines 2200-2242): the
local sink has reserved id 0; when listed, select it and activate it unless
already started (a failure deselecting it and recording -1 unless -2 is
set); otherwise deselect and deactivate it. -/
def speaker_set_local (st1 : Engine) (ids : List Nat) (o : Oracles) : Engine :=
  if 0 ∈ ids then
    let sa := { st1 with laudioSelected := true }
    if sa.laudioStatus = LaudioState.started then sa
    else if o.laudioActOk then
      { sa with laudioStatus :=
          if sa.playerState = PlayState.playing then LaudioState.started
          else if sa.laudioStatus = LaudioState.closed then LaudioState.opened
          else sa.laudioStatus }
    else
      { sa with laudioSelected := false,
                laudioStatus := LaudioState.closed,
                cmdRet := if sa.cmdRet = -2 then sa.cmdRet else -1 }
  else
    let sa := { st1 with laudioSelected := false }
    if sa.laudioStatus ≠ LaudioState.closed then
      { sa with laudioStatus := LaudioState.closed }
    else sa

/-- Completion of `speaker_set` (player.c lines 2244-2247): 1 (async) when
device operations are pending, else the accumulated `cmd.ret`. -/
def speaker_set_ret (st2 : Engine) : Int × Engine :=
  if st2.raopPending > 0 then (1, st2) else (st2.cmdRet, st2)

/-- Speaker reconciliation `speaker_set` (player.c lines 2118-2248): reset
`cmd.ret`/`cmd.raop_pending`, process every known device, then the local
sink through `speaker_set_local`, and complete through `speaker_set_ret`. -/
def speaker_set (st : Engine) (ids : List Nat) (o : Oracles) : Int × Engine :=
  let st0 := { st with raopPending := 0, cmdRet := 0 }
  let folded := st0.devices.foldl (speaker_set_dev ids o) (st0, [])
  let st1 := { folded.1 with devices := folded.2 }
  speaker_set_ret (speaker_set_local st1 ids o)

/-- Outcome reported to a device callback: the device disappeared from the
registry (`device_check` failed), the session requires a password
(RAOP_PASSWORD), the session failed (RAOP_FAILED), or it is fine. -/
inductive CbOutcome
  | gone
  | password
  | failed
  | ok
deriving DecidableEq, Repr

/-- One remote-device callback fired while a `speaker_set` command is in
flight: `device_activate_cb` (player.c lines 1229-1314), `device_probe_cb`
(lines 1316-1370) or `device_shutdown_cb` (lines 1176-1217, whose only
`cmd.ret` write is on the device-disappeared path). -/
inductive CbEvent
  | activateCb (c : CbOutcome)
  | probeCb (c : CbOutcome)
  | shutdownCb (gone : Bool)
deriving DecidableEq, Repr

/-- Effect of one device callback on `cmd.ret`, translated from the callback
bodies: a password outcome stores -2 unconditionally; every hard-failure
path stores -1 only when `cmd.ret` is not already -2; success paths leave
`cmd.ret` alone.  (The Linux build is modelled; the FreeBSD-only clock
fallback in `device_activate_cb` also guards its -1 with `cmd.ret != -2`.) -/
def cb_ret (e : CbEvent) (r : Int) : Int :=
  match e with
  | CbEvent.activateCb CbOutcome.gone => if r = -2 then r else -1
  | CbEvent.activateCb CbOutcome.password => -2
  | CbEvent.activateCb CbOutcome.failed => if r = -2 then r else -1
  | CbEvent.activateCb CbOutcome.ok => r
  | CbEvent.probeCb CbOutcome.gone => if r = -2 then r else -1
  | CbEvent.probeCb CbOutcome.password => -2
  | CbEvent.probeCb CbOutcome.failed => if r = -2 then r else -1
  | CbEvent.probeCb CbOutcome.ok => r
  | CbEvent.shutdownCb true => if r = -2 then r else -1
  | CbEvent.shutdownCb false => r

/-- Value of `cmd.ret` after a sequence of device callbacks. -/
def cb_ret_run (r : Int) (es : List CbEvent) : Int :=
  es.foldl (fun a e => cb_ret e a) r

/-! Frame lemmas: most queue operations only touch the item store (and the
shuffle order, for the reshuffle), so player state and the notification
channel are untouched by them. -/

/-! Concrete fixtures used by witnesses and counterexamples. -/

/-- Oracle fixture: every external call succeeds, the transcoder seeks
exactly to the requested millisecond, no remote device launches. -/
def egOracle : Oracles :=
  { openOk := fun _ => true
    seekZeroOk := true
    seekMs := fun m => some m
    shuf := fun l => l
    clockTs := some ⟨0, 0⟩
    laudioPos := 0
    raopStartOk := fun _ => false
    laudioOpenOk := true
    laudioStartOk := true
    laudioActOk := true
    timerOk := true
    flushPending := 0 }

/-- Item fixture with an open transcoder context. -/
def egItemA : SourceItem := ⟨10, 0, 0, 0, true, none⟩

/-- Item fixture without a transcoder context. -/
def egItemB : SourceItem := ⟨11, 0, 0, 0, false, none⟩

/-- Engine fixture: playing the first of two queued items, repeat off, no
shuffle, update fd registered. -/
def egBase : Engine :=
  { playerState := PlayState.playing
    repeatMode := RepeatMode.off
    shuffle := false
    items := [egItemA, egItemB]
    plOrder := [0, 1]
    shOrder := [0, 1]
    curPlaying := some 0
    curStreaming := some 0
    pbPos := 0
    pbPosStamp := ⟨0, 0⟩
    lastRtptime := 100000
    audioBufLen := 0
    syncSource := SyncSource.clock
    laudioStatus := LaudioState.closed
    laudioSelected := false
    raopSessions := 1
    devices := []
    cmdRet := 0
    raopPending := 0
    updateFdSet := true
    edges := [] }

/-- Engine fixture for the C9 scenario: stopped player, repeat Song, one
queued item, no streaming cursor. -/
def c9Engine : Engine :=
  { egBase with playerState := PlayState.stopped, repeatMode := RepeatMode.song,
                curPlaying := none, curStreaming := none,
                items := [egItemB], plOrder := [0], shOrder := [0],
                raopSessions := 0 }

/-- Counterexample engine for C2: device 1 requires a password that is not
stored; device 2 has no password requirement and no session. -/
def c2Engine : Engine :=
  { egBase with devices :=
      [⟨1, false, true, true, false, false⟩, ⟨2, false, true, false, false, false⟩] }

/-- The engine state `playback_pause` hands to its bottom half on the
synchronous path (player.c lines 1955-1996 with the local sink closed, no
scheduled successor on the current item and no pending flushes): the pause
position `pos` is stored in item `k`'s end marker, `cmd.raop_pending` takes
the flush count, the cursors are reset to stream item `k`, its `play_next`
is cleared and the audio buffer is drained. -/
def pause_front_mid (st : Engine) (o : Oracles) (pos k : Nat) : Engine :=
  { modItem
      { modItem st k (fun it => { it with endPos := pos }) with
        raopPending := o.flushPending, curPlaying := none, curStreaming := some k }
      k (fun it => { it with playNext := none })
    with audioBufLen := 0 }

/-- Paused-at-60000 fixture for the pause/resume composition: item 0 started
streaming at sample 50000, the committed position is 60000 (a 10000-sample
offset into the item). -/
def c5Engine : Engine :=
  { egBase with
      items := [{ egItemA with streamStart := 50000, outputStart := 50000 }, egItemB],
      pbPos := 60000,
      raopSessions := 0 }

theorem u64_eq_of_lt {n : Nat} (h : n < U64MOD) : u64 n = n := Nat.mod_eq_of_lt h

theorem u64sub_eq_sub {a b : Nat} (hb : b ≤ a) (ha : a < U64MOD) :
    u64sub a b = a - b := by
  unfold u64sub U64MOD at *
  omega

theorem source_stop_go_items_only :
    ∀ (fuel : Nat) (ps : Option Nat) (st : Engine),
      ∃ its, source_stop_go fuel st ps = { st with items := its } := by
  intro fuel
  induction fuel with
  | zero => intro ps st; exact ⟨st.items, rfl⟩
  | succ n ih =>
    intro ps st
    cases ps with
    | none => exact ⟨st.items, rfl⟩
    | some k =>
      rcases ih (getItem st k).playNext (setItem st k
        { getItem st k with ctx := false, playNext := none }) with ⟨its, h⟩
      exact ⟨its, by rw [source_stop_go, h]; rfl⟩

theorem source_stop_items_only (st : Engine) (ps : Option Nat) :
    ∃ its, source_stop st ps = { st with items := its } :=
  source_stop_go_items_only _ ps st

theorem source_open_items_only (st : Engine) (k : Nat) (o : Oracles) :
    ∃ its, (source_open st k o).1 = { st with items := its } := by
  unfold source_open modItem setItem
  split
  · exact ⟨_, rfl⟩
  · exact ⟨_, rfl⟩

theorem open_loop_go_items_only :
    ∀ (l : List Nat) (st : Engine) (o : Oracles),
      ∃ its, (open_loop_go l st o).1 = { st with items := its } := by
  intro l
  induction l with
  | nil => intro st o; exact ⟨st.items, rfl⟩
  | cons k rest ih =>
    intro st o
    rw [open_loop_go]
    rcases source_open_items_only st k o with ⟨its1, h1⟩
    by_cases hok : (source_open st k o).2 = true
    · simp only [hok, if_pos]
      exact ⟨its1, by rw [h1]⟩
    · simp only [Bool.not_eq_true] at hok
      simp only [hok, Bool.false_eq_true, if_false]
      rcases ih (source_open st k o).1 o with ⟨its2, h2⟩
      rw [h2, h1]
      exact ⟨its2, rfl⟩

theorem source_next_open_frame (st : Engine) (cur0 : Option Nat) (force : Bool)
    (ord : List Nat) (start lim : Nat) (o : Oracles) :
    ∃ its cs, (source_next_open st cur0 force ord start lim o).2 =
      { st with items := its, curStreaming := cs } := by
  unfold source_next_open
  rcases open_loop_go_items_only (ringCandidates ord start lim) st o with ⟨its, h⟩
  cases hf : (open_loop_go (ringCandidates ord start lim) st o).2 with
  | none =>
    refine ⟨its, st.curStreaming, ?_⟩
    simp only [hf, h]
  | some k =>
    simp only [hf]
    cases force with
    | true => exact ⟨its, some k, by rw [h]⟩
    | false =>
      cases cur0 with
      | none => exact ⟨its, some k, by rw [h]⟩
      | some kc =>
        simp only [modItem, setItem]
        exact ⟨_, some k, by rw [h]⟩

theorem source_reshuffle_fields (st : Engine) (o : Oracles) :
    (source_reshuffle st o).edges = st.edges ∧
    (source_reshuffle st o).playerState = st.playerState ∧
    (source_reshuffle st o).updateFdSet = st.updateFdSet ∧
    (source_reshuffle st o).items = st.items := by
  unfold source_reshuffle
  cases hpl : st.plOrder with
  | nil => exact ⟨rfl, rfl, rfl, rfl⟩
  | cons a l =>
    cases hcs : st.curStreaming with
    | none => exact ⟨rfl, rfl, rfl, rfl⟩
    | some k => exact ⟨rfl, rfl, rfl, rfl⟩

theorem status_update_fields (s : PlayState) (st : Engine) :
    (status_update s st).playerState = s ∧
    (status_update s st).updateFdSet = st.updateFdSet ∧
    (status_update s st).edges = (if st.updateFdSet then st.edges ++ [s] else st.edges) := by
  unfold status_update
  by_cases h : st.updateFdSet = true
  · simp [h]
  · simp only [Bool.not_eq_true] at h
    simp [h]

theorem source_stop_edges (st : Engine) (ps : Option Nat) :
    (source_stop st ps).edges = st.edges := by
  rcases source_stop_items_only st ps with ⟨its, h⟩
  rw [h]

theorem source_stop_updateFdSet (st : Engine) (ps : Option Nat) :
    (source_stop st ps).updateFdSet = st.updateFdSet := by
  rcases source_stop_items_only st ps with ⟨its, h⟩
  rw [h]

theorem source_stop_playerState (st : Engine) (ps : Option Nat) :
    (source_stop st ps).playerState = st.playerState := by
  rcases source_stop_items_only st ps with ⟨its, h⟩
  rw [h]

theorem playback_stop_fields (st : Engine) :
    (playback_stop st).1 = 0 ∧
    (playback_stop st).2.playerState = PlayState.stopped ∧
    (playback_stop st).2.updateFdSet = st.updateFdSet ∧
    (playback_stop st).2.edges =
      (if st.updateFdSet then st.edges ++ [PlayState.stopped] else st.edges) := by
  unfold playback_stop
  refine ⟨rfl, (status_update_fields _ _).1, ?_, ?_⟩
  · rw [(status_update_fields _ _).2.1]
    show (source_stop _ _).updateFdSet = st.updateFdSet
    rw [source_stop_updateFdSet]
    split <;> rfl
  · rw [(status_update_fields _ _).2.2]
    have h1 : (source_stop (if st.laudioStatus ≠ LaudioState.closed
        then { st with laudioStatus := LaudioState.closed } else st)
        (play_chain_start (if st.laudioStatus ≠ LaudioState.closed
        then { st with laudioStatus := LaudioState.closed } else st))).updateFdSet
        = st.updateFdSet := by
      rw [source_stop_updateFdSet]
      split <;> rfl
    have h2 : (source_stop (if st.laudioStatus ≠ LaudioState.closed
        then { st with laudioStatus := LaudioState.closed } else st)
        (play_chain_start (if st.laudioStatus ≠ LaudioState.closed
        then { st with laudioStatus := LaudioState.closed } else st))).edges
        = st.edges := by
      rw [source_stop_edges]
      split <;> rfl
    show (if (source_stop _ _).updateFdSet = true then (source_stop _ _).edges ++ _
          else (source_stop _ _).edges) = _
    rw [h1, h2]

theorem source_next_open_fields (st : Engine) (cur0 : Option Nat) (force : Bool)
    (ord : List Nat) (start lim : Nat) (o : Oracles) :
    (source_next_open st cur0 force ord start lim o).2.edges = st.edges ∧
    (source_next_open st cur0 force ord start lim o).2.playerState = st.playerState ∧
    (source_next_open st cur0 force ord start lim o).2.updateFdSet = st.updateFdSet := by
  rcases source_next_open_frame st cur0 force ord start lim o with ⟨its, cs, h⟩
  rw [h]
  exact ⟨rfl, rfl, rfl⟩

theorem source_next_open_reshuffle_fields (st : Engine) (o : Oracles) (cur0 : Option Nat)
    (f : Bool) (ord : List Nat) (s l : Nat) :
    (source_next_open (source_reshuffle st o) cur0 f ord s l o).2.edges = st.edges ∧
    (source_next_open (source_reshuffle st o) cur0 f ord s l o).2.playerState =
      st.playerState ∧
    (source_next_open (source_reshuffle st o) cur0 f ord s l o).2.updateFdSet =
      st.updateFdSet := by
  refine ⟨?_, ?_, ?_⟩
  · rw [(source_next_open_fields _ _ _ _ _ _ _).1]
    exact (source_reshuffle_fields st o).1
  · rw [(source_next_open_fields _ _ _ _ _ _ _).2.1]
    exact (source_reshuffle_fields st o).2.1
  · rw [(source_next_open_fields _ _ _ _ _ _ _).2.2]
    exact (source_reshuffle_fields st o).2.2.1

theorem source_next_frame (st : Engine) (f : Bool) (o : Oracles) (r : Int) (st' : Engine)
    (h : source_next st f o = some (r, st')) :
    (st'.edges = st.edges ∧ st'.playerState = st.playerState ∧
     st'.updateFdSet = st.updateFdSet) ∨
    st'.playerState = PlayState.stopped := by
  unfold source_next at h
  split at h
  · exact absurd h (by simp)
  · simp only [] at h
    repeat' split at h
    all_goals try (exact Option.noConfusion h)
    all_goals simp only [Option.some.injEq, Prod.ext_iff] at h
    all_goals obtain ⟨h1, h2⟩ := h
    all_goals rw [← h2]
    all_goals first
      | (left; exact ⟨rfl, rfl, rfl⟩)
      | (right; exact (playback_stop_fields st).2.1)
      | (left
         rcases source_open_items_only st _ o with ⟨its, hop⟩
         rw [hop]
         exact ⟨rfl, rfl, rfl⟩)
      | (left; exact source_next_open_fields _ _ _ _ _ _ _)
      | (left; exact source_next_open_reshuffle_fields st o _ _ _ _ _)

theorem playback_next_bh_silent (st : Engine) (o : Oracles) (st' : Engine)
    (h : playback_next_bh st o = some (0, st')) :
    st'.playerState = PlayState.paused ∧ st'.edges = st.edges := by
  unfold playback_next_bh at h
  simp only [] at h
  split at h
  · exact Option.noConfusion h
  case h_2 r2 st2 heq =>
    split at h
    · simp only [Option.some.injEq, Prod.ext_iff] at h
      exact absurd h.1.symm (by norm_num)
    · split at h
      · simp only [Option.some.injEq, Prod.ext_iff] at h
        exact absurd h.1.symm (by norm_num)
      · split at h
        · exact Option.noConfusion h
        · simp only [Option.some.injEq, Prod.ext_iff] at h
          obtain ⟨h1, h2⟩ := h
          rw [← h2]
          refine ⟨rfl, ?_⟩
          show st2.edges = st.edges
          rcases source_next_frame _ _ _ _ _ heq with ⟨he, hp, hu⟩ | hstop
          · rw [he, source_stop_edges]
          · exact absurd hstop (by assumption)

theorem playback_seek_bh_silent (st : Engine) (ms : Nat) (o : Oracles) (st' : Engine)
    (h : playback_seek_bh st ms o = some (0, st')) :
    st'.playerState = PlayState.paused ∧ st'.edges = st.edges := by
  unfold playback_seek_bh at h
  split at h
  · exact Option.noConfusion h
  · split at h
    · simp only [Option.some.injEq, Prod.ext_iff] at h
      exact absurd h.1.symm (by norm_num)
    · simp only [Option.some.injEq, Prod.ext_iff] at h
      obtain ⟨h1, h2⟩ := h
      rw [← h2]
      exact ⟨rfl, rfl⟩

/-- C4: for every queue, repeat mode, shuffle flag and force flag, the
effective repeat mode computed at the top of `source_next` (the `r_mode`
adjustment of player.c lines 609-624, embodied in `eff_r_mode` and used by
`source_next`) agrees with the specification's three-rule description
(`eff_r_mode_spec`): force with mode Song gives All; a single-item playlist
with (updated) mode All gives Song; no force, mode Off and a single-item
playlist gives Song; otherwise the configured mode. -/
theorem c4_effective_repeat_mode (force : Bool) (mode : RepeatMode) (single : Bool) :
    eff_r_mode force mode single = eff_r_mode_spec force mode single := by
  cases force <;> cases mode <;> cases single <;> decide

/-- C8: with an empty queue (`source_head = NULL`, i.e. `plOrder = []`), the
start command `playback_start` fails with -1 and leaves the whole engine
state, and the caller's `idx_id`, untouched. -/
theorem c8_empty_queue_start (st : Engine) (idxArg : Option Nat) (o : Oracles)
    (h : st.plOrder = []) :
    playback_start st idxArg o = some (-1, st, idxArg) := by
  unfold playback_start
  rw [h]

/-- C8 witness: the empty-queue engine fails to start with -1 and is
returned unchanged. -/
theorem c8_empty_queue_start_witness :
    playback_start { egBase with plOrder := [] } (some 5) egOracle =
      some (-1, { egBase with plOrder := [] }, some 5) :=
  c8_empty_queue_start { egBase with plOrder := [] } (some 5) egOracle rfl

/-- C10: when the player is already Playing and the queue is non-empty,
`playback_start` returns 0, writes the current item's id (`cur_playing`'s if
set, else `cur_streaming`'s) into `*idx_id` when that pointer is non-null,
emits exactly one status notification, and leaves every other engine field
unchanged. -/
theorem c10_start_already_playing (st : Engine) (o : Oracles)
    (h1 : st.playerState = PlayState.playing) (h2 : st.plOrder ≠ [])
    (h3 : st.updateFdSet = true) :
    (playback_start st none o =
       some (0, { st with playerState := PlayState.playing,
                          edges := st.edges ++ [PlayState.playing] }, none)) ∧
    (∀ (n : Nat) (kp : Nat), st.curPlaying = some kp →
       playback_start st (some n) o =
         some (0, { st with playerState := PlayState.playing,
                            edges := st.edges ++ [PlayState.playing] },
               some (getItem st kp).id)) ∧
    (∀ (n : Nat) (ks : Nat), st.curPlaying = none → st.curStreaming = some ks →
       playback_start st (some n) o =
         some (0, { st with playerState := PlayState.playing,
                            edges := st.edges ++ [PlayState.playing] },
               some (getItem st ks).id)) := by
  rcases hpl : st.plOrder with _ | ⟨a, l⟩
  · exact absurd hpl h2
  · refine ⟨?_, ?_, ?_⟩
    · simp [playback_start, hpl, h1, status_update, h3]
    · intro n kp hcp
      simp [playback_start, hpl, h1, hcp, status_update, h3]
    · intro n ks hcp hcs
      simp [playback_start, hpl, h1, hcp, hcs, status_update, h3]

/-- C10 witness: starting the playing fixture reports id 10 (the current
item), appends one Playing edge and changes nothing else. -/
theorem c10_start_already_playing_witness :
    playback_start egBase (some 5) egOracle =
      some (0, { egBase with playerState := PlayState.playing,
                             edges := egBase.edges ++ [PlayState.playing] },
            some (getItem egBase 0).id) :=
  (c10_start_already_playing egBase egOracle rfl (by decide) rfl).2.1 5 0 rfl

/-- C9: `source_next` is only safe under the precondition
`cur_streaming ≠ NULL` when the effective repeat mode is Song: its Song
branch reads `cur_streaming->ctx` unconditionally, so with
`cur_streaming = NULL` and a non-empty queue the total embedding yields no
value (`none`); and the branch is reachable that way — `playback_start`
invoked with a NULL `idx_id`, no current item and repeat mode Song runs
straight into it. -/
theorem c9_song_branch_null_cur_streaming :
    (∀ (st : Engine) (force : Bool) (o : Oracles),
       st.plOrder ≠ [] → st.curStreaming = none →
       eff_r_mode force st.repeatMode (decide (st.plOrder.length = 1)) =
         RepeatMode.song →
       source_next st force o = none) ∧
    playback_start c9Engine none egOracle = none := by
  constructor
  · intro st force o hne hcs hrm
    rcases hpl : st.plOrder with _ | ⟨a, l⟩
    · exact absurd hpl hne
    · rw [hpl] at hrm
      simp [source_next, hpl, hcs]
      simp at hrm
      rw [hrm]
  · decide

/-- C9 witness: the concrete reachable instance — with repeat Song, one
enabled item and no streaming cursor, `source_next` (and `playback_start`,
which calls it) hits the NULL dereference. -/
theorem c9_song_branch_null_cur_streaming_witness :
    source_next c9Engine false egOracle = none ∧
    playback_start c9Engine none egOracle = none :=
  ⟨c9_song_branch_null_cur_streaming.1 c9Engine false egOracle (by decide) rfl
     (by decide),
   c9_song_branch_null_cur_streaming.2⟩

/-- C3 counterexample: on the playing two-item fixture (update fd
registered), `playback_next_bh` succeeds and changes `PlayerState` from
Playing to Paused while writing no edge at all to the update channel — a
transition with zero notifications, refuting "every transition writes
exactly one edge". -/
theorem c3_counterexample :
    egBase.playerState = PlayState.playing ∧
    egBase.updateFdSet = true ∧
    (playback_next_bh egBase egOracle).isSome = true ∧
    ((playback_next_bh egBase egOracle).getD (0, egBase)).1 = 0 ∧
    ((playback_next_bh egBase egOracle).getD (0, egBase)).2.playerState =
      PlayState.paused ∧
    ((playback_next_bh egBase egOracle).getD (0, egBase)).2.edges = egBase.edges := by
  decide

/-- C3 (amended): transitions of `PlayerState` performed through
`status_update` write exactly one edge to the update channel (when an update
fd is registered) — in particular `playback_stop` ends in Stopped with
exactly one Stopped edge — while the next/seek bottom halves set the state
to Paused silently, writing no edge (the single notification for those
commands comes from the subsequent start's `status_update`). -/
theorem c3_transitions_amended :
    (∀ (st : Engine) (s : PlayState), st.updateFdSet = true →
       (status_update s st).playerState = s ∧
       (status_update s st).edges = st.edges ++ [s]) ∧
    (∀ st : Engine, st.updateFdSet = true →
       (playback_stop st).2.playerState = PlayState.stopped ∧
       (playback_stop st).2.edges = st.edges ++ [PlayState.stopped]) ∧
    (∀ (st : Engine) (o : Oracles) (st' : Engine),
       playback_next_bh st o = some (0, st') →
       st'.playerState = PlayState.paused ∧ st'.edges = st.edges) ∧
    (∀ (st : Engine) (ms : Nat) (o : Oracles) (st' : Engine),
       playback_seek_bh st ms o = some (0, st') →
       st'.playerState = PlayState.paused ∧ st'.edges = st.edges) := by
  refine ⟨?_, ?_, ?_, ?_⟩
  · intro st s h
    refine ⟨(status_update_fields s st).1, ?_⟩
    rw [(status_update_fields s st).2.2, h]
    simp
  · intro st h
    refine ⟨(playback_stop_fields st).2.1, ?_⟩
    rw [(playback_stop_fields st).2.2.2, h]
    simp
  · exact fun st o st' h => playback_next_bh_silent st o st' h
  · exact fun st ms o st' h => playback_seek_bh_silent st ms o st' h

/-- C3 witness: concrete instances of each amended conjunct on the playing
fixture. -/
theorem c3_transitions_amended_witness :
    ((status_update PlayState.paused egBase).playerState = PlayState.paused ∧
     (status_update PlayState.paused egBase).edges =
       egBase.edges ++ [PlayState.paused]) ∧
    ((playback_stop egBase).2.playerState = PlayState.stopped ∧
     (playback_stop egBase).2.edges = egBase.edges ++ [PlayState.stopped]) ∧
    (((playback_next_bh egBase egOracle).getD (0, egBase)).2.playerState =
       PlayState.paused ∧
     ((playback_next_bh egBase egOracle).getD (0, egBase)).2.edges =
       egBase.edges) ∧
    (((playback_seek_bh egBase 100 egOracle).getD (0, egBase)).2.playerState =
       PlayState.paused ∧
     ((playback_seek_bh egBase 100 egOracle).getD (0, egBase)).2.edges =
       egBase.edges) :=
  ⟨c3_transitions_amended.1 egBase PlayState.paused rfl,
   c3_transitions_amended.2.1 egBase rfl,
   c3_transitions_amended.2.2.1 egBase egOracle _ (by decide),
   c3_transitions_amended.2.2.2 egBase 100 egOracle _ (by decide)⟩

/-! Lemmas about the `speaker_set` device fold and the callback model. -/

theorem cb_ret_preserves_neg2 (e : CbEvent) : cb_ret e (-2) = -2 := by
  cases e with
  | activateCb c => cases c <;> simp [cb_ret]
  | probeCb c => cases c <;> simp [cb_ret]
  | shutdownCb g => cases g <;> simp [cb_ret]

theorem cb_ret_run_from_neg2 (es : List CbEvent) : cb_ret_run (-2) es = -2 := by
  induction es with
  | nil => rfl
  | cons e es ih =>
    unfold cb_ret_run at ih ⊢
    rw [List.foldl_cons, cb_ret_preserves_neg2 e]
    exact ih

theorem speaker_set_dev_keeps_neg2 (ids : List Nat) (o : Oracles)
    (acc : Engine × List RaopDevice) (rd : RaopDevice)
    (h : acc.1.cmdRet = -2) :
    (speaker_set_dev ids o acc rd).1.cmdRet = -2 := by
  unfold speaker_set_dev
  repeat' split
  all_goals simp [h]

theorem speaker_set_foldl_keeps_neg2 (ids : List Nat) (o : Oracles) :
    ∀ (l : List RaopDevice) (acc : Engine × List RaopDevice),
      acc.1.cmdRet = -2 →
      (l.foldl (speaker_set_dev ids o) acc).1.cmdRet = -2 := by
  intro l
  induction l with
  | nil => intro acc h; exact h
  | cons rd rest ih =>
    intro acc h
    rw [List.foldl_cons]
    exact ih _ (speaker_set_dev_keeps_neg2 ids o acc rd h)

theorem speaker_set_local_keeps_neg2 (st1 : Engine) (ids : List Nat) (o : Oracles)
    (h : st1.cmdRet = -2) : (speaker_set_local st1 ids o).cmdRet = -2 := by
  unfold speaker_set_local
  simp only []
  repeat' split
  all_goals simp [h]

theorem speaker_set_local_raopPending (st1 : Engine) (ids : List Nat) (o : Oracles) :
    (speaker_set_local st1 ids o).raopPending = st1.raopPending := by
  unfold speaker_set_local
  simp only []
  repeat' split
  all_goals rfl

theorem speaker_set_local_devices (st1 : Engine) (ids : List Nat) (o : Oracles) :
    (speaker_set_local st1 ids o).devices = st1.devices := by
  unfold speaker_set_local
  simp only []
  repeat' split
  all_goals rfl

theorem speaker_set_ret_snd (st2 : Engine) : (speaker_set_ret st2).2 = st2 := by
  unfold speaker_set_ret
  split <;> rfl

theorem speaker_set_ret_fst (st2 : Engine) (h : st2.raopPending = 0) :
    (speaker_set_ret st2).1 = st2.cmdRet := by
  unfold speaker_set_ret
  rw [if_neg]
  omega

theorem speaker_set_unfold (st : Engine) (ids : List Nat) (o : Oracles) :
    speaker_set st ids o = speaker_set_ret (speaker_set_local
      { (st.devices.foldl (speaker_set_dev ids o)
           ({ st with raopPending := 0, cmdRet := 0 }, [])).1 with
        devices := (st.devices.foldl (speaker_set_dev ids o)
           ({ st with raopPending := 0, cmdRet := 0 }, [])).2 } ids o) := rfl

theorem speaker_set_foldl_sets_neg2 (ids : List Nat) (o : Oracles) :
    ∀ (l : List RaopDevice) (acc : Engine × List RaopDevice) (rd : RaopDevice),
      rd ∈ l → rd.devId ∈ ids → rd.hasPassword = true → rd.password = false →
      (l.foldl (speaker_set_dev ids o) acc).1.cmdRet = -2 := by
  intro l
  induction l with
  | nil => intro acc rd hmem; exact absurd hmem (List.not_mem_nil rd)
  | cons x rest ih =>
    intro acc rd hmem hin hpw hnp
    rw [List.foldl_cons]
    rcases List.mem_cons.mp hmem with heq | hmem'
    · subst heq
      refine speaker_set_foldl_keeps_neg2 ids o rest _ ?_
      unfold speaker_set_dev
      rw [if_pos hin, if_pos ⟨hpw, hnp⟩]
    · exact ih _ rd hmem' hin hpw hnp

/-- C1: once `cmd.ret` holds -2 (password required), no later event can
downgrade it: `speaker_set` records -2 whenever some listed device requires
a password it does not have (and, completing synchronously, returns -2), and
every sequence of device callbacks (`device_activate_cb`, `device_probe_cb`,
`device_shutdown_cb` — device disappeared, activation failed, probe failed,
deactivation failed) maps -2 to -2, so a command whose `cmd.ret` ever
reaches -2 completes with -2 regardless of other failures. -/
theorem c1_password_ret_never_downgraded :
    (∀ (st : Engine) (ids : List Nat) (o : Oracles),
       (∃ rd ∈ st.devices, rd.devId ∈ ids ∧ rd.hasPassword = true ∧
          rd.password = false) →
       (speaker_set st ids o).2.cmdRet = -2 ∧
       ((speaker_set st ids o).2.raopPending = 0 → (speaker_set st ids o).1 = -2)) ∧
    (∀ (r0 : Int) (es1 es2 : List CbEvent),
       cb_ret_run r0 es1 = -2 → cb_ret_run r0 (es1 ++ es2) = -2) := by
  constructor
  · intro st ids o hex
    rcases hex with ⟨rd, hmem, hin, hpw, hnp⟩
    have hfold : ((st.devices).foldl (speaker_set_dev ids o)
        ({ st with raopPending := 0, cmdRet := 0 }, [])).1.cmdRet = -2 :=
      speaker_set_foldl_sets_neg2 ids o st.devices _ rd hmem hin hpw hnp
    have hret : (speaker_set st ids o).2.cmdRet = -2 := by
      rw [speaker_set_unfold, speaker_set_ret_snd]
      exact speaker_set_local_keeps_neg2 _ _ _ hfold
    refine ⟨hret, ?_⟩
    intro hpend
    rw [speaker_set_unfold, speaker_set_ret_snd] at hret hpend
    rw [speaker_set_unfold, speaker_set_ret_fst _ hpend]
    exact hret
  · intro r0 es1 es2 h
    unfold cb_ret_run at h ⊢
    rw [List.foldl_append, h]
    exact cb_ret_run_from_neg2 es2

/-- C1 witness: one password-protected device without a stored password in
the selected set drives `cmd.ret` to -2 (returned synchronously), and a
later device-disappeared shutdown failure, an activation failure and a probe
failure leave it at -2. -/
theorem c1_password_ret_never_downgraded_witness :
    (speaker_set { egBase with
        devices := [⟨1, false, true, true, false, false⟩] } [1] egOracle).2.cmdRet
      = -2 ∧
    (speaker_set { egBase with
        devices := [⟨1, false, true, true, false, false⟩] } [1] egOracle).1 = -2 ∧
    cb_ret_run 0 ([CbEvent.activateCb CbOutcome.password] ++
      [CbEvent.shutdownCb true, CbEvent.activateCb CbOutcome.failed,
       CbEvent.probeCb CbOutcome.gone]) = -2 := by
  have h := c1_password_ret_never_downgraded.1
    { egBase with devices := [⟨1, false, true, true, false, false⟩] } [1] egOracle
    ⟨⟨1, false, true, true, false, false⟩, by decide, by decide, rfl, rfl⟩
  refine ⟨h.1, h.2 (by decide), ?_⟩
  exact c1_password_ret_never_downgraded.2 0
    [CbEvent.activateCb CbOutcome.password]
    [CbEvent.shutdownCb true, CbEvent.activateCb CbOutcome.failed,
     CbEvent.probeCb CbOutcome.gone] (by decide)

theorem speaker_set_dev_snd (ids : List Nat) (o : Oracles)
    (st : Engine) (acc : List RaopDevice) (rd : RaopDevice) :
    (speaker_set_dev ids o (st, acc) rd).2 =
      acc ++ [speaker_set_dev_new ids o rd] := by
  unfold speaker_set_dev speaker_set_dev_new
  repeat' split
  all_goals simp_all

theorem speaker_set_foldl_devices (ids : List Nat) (o : Oracles) :
    ∀ (l : List RaopDevice) (st : Engine) (acc : List RaopDevice),
      (l.foldl (speaker_set_dev ids o) (st, acc)).2 =
        acc ++ l.map (speaker_set_dev_new ids o) := by
  intro l
  induction l with
  | nil => intro st acc; simp
  | cons rd rest ih =>
    intro st acc
    rw [List.foldl_cons, List.map_cons]
    have hpair : speaker_set_dev ids o (st, acc) rd =
        ((speaker_set_dev ids o (st, acc) rd).1,
         acc ++ [speaker_set_dev_new ids o rd]) := by
      rw [← speaker_set_dev_snd ids o st acc rd]
    rw [hpair, ih]
    simp

theorem speaker_set_devices_map (st : Engine) (ids : List Nat) (o : Oracles) :
    (speaker_set st ids o).2.devices =
      st.devices.map (speaker_set_dev_new ids o) := by
  rw [speaker_set_unfold, speaker_set_ret_snd, speaker_set_local_devices]
  show (st.devices.foldl (speaker_set_dev ids o) _ ).2 = _
  rw [speaker_set_foldl_devices]
  simp

/-- C2 counterexample: with `ids = [1, 2]` and every synchronous device
activation failing (`raopStartOk` false everywhere), `speaker_set` completes
synchronously (`raop_pending = 0`) with result -2, yet device 2 — whose id
is listed and which needs no password — ends with `selected = false`: the
claimed invariant fails as stated. -/
theorem c2_counterexample :
    ¬ ((speaker_set c2Engine [1, 2] egOracle).2.raopPending = 0 →
       ((speaker_set c2Engine [1, 2] egOracle).1 = 0 ∨
        (speaker_set c2Engine [1, 2] egOracle).1 = -2) →
       (∀ d ∈ (speaker_set c2Engine [1, 2] egOracle).2.devices,
          (d.devId ∈ [1, 2] ∧ (d.hasPassword = true → d.password = true)) →
          d.selected = true) ∧
       (∀ d ∈ (speaker_set c2Engine [1, 2] egOracle).2.devices,
          d.devId ∉ [1, 2] → d.selected = false)) := by
  decide

/-- C2 (amended): when `speaker_set(ids)` completes synchronously with
result 0 or -2, the resulting device list is the pointwise image of
`speaker_set_dev_new`, under which every known remote device whose id is in
`ids`, that needs no password or has a known one, and whose activation —
when one had to be attempted, i.e. when it had no session — did not fail
synchronously, ends with `selected = true`, and every device whose id is not
in `ids` ends with `selected = false`. -/
theorem c2_speaker_set_selection (st : Engine) (ids : List Nat) (o : Oracles)
    (hsync : (speaker_set st ids o).2.raopPending = 0)
    (hres : (speaker_set st ids o).1 = 0 ∨ (speaker_set st ids o).1 = -2) :
    (speaker_set st ids o).2.devices =
      st.devices.map (speaker_set_dev_new ids o) ∧
    (∀ rd : RaopDevice, rd.devId ∈ ids → (rd.hasPassword = true → rd.password = true) →
       (rd.session = true ∨ o.raopStartOk rd.devId = true) →
       (speaker_set_dev_new ids o rd).selected = true) ∧
    (∀ rd : RaopDevice, rd.devId ∉ ids →
       (speaker_set_dev_new ids o rd).selected = false) := by
  refine ⟨speaker_set_devices_map st ids o, ?_, ?_⟩
  · intro rd hin hpw hact
    unfold speaker_set_dev_new
    rw [if_pos hin]
    have hnp : ¬(rd.hasPassword = true ∧ rd.password = false) := by
      rintro ⟨h1, h2⟩
      rw [hpw h1] at h2
      exact Bool.noConfusion h2
    rw [if_neg hnp]
    have hna : ¬(rd.session = false ∧ o.raopStartOk rd.devId = false) := by
      rintro ⟨h1, h2⟩
      rcases hact with h | h
      · rw [h1] at h; exact Bool.noConfusion h
      · rw [h2] at h; exact Bool.noConfusion h
    rw [if_neg hna]
  · intro rd hout
    unfold speaker_set_dev_new
    rw [if_neg hout]

/-- C2 witness: a listed device that already has a session stays selected,
the unlisted one is deselected; the call is synchronous with result 0. -/
theorem c2_speaker_set_selection_witness :
    ((speaker_set { egBase with devices :=
        [⟨3, false, true, false, false, true⟩, ⟨4, true, true, false, false, false⟩] }
        [3] egOracle).2.devices =
      [⟨3, true, true, false, false, true⟩, ⟨4, false, true, false, false, false⟩]) ∧
    (speaker_set_dev_new [3] egOracle ⟨3, false, true, false, false, true⟩).selected
      = true ∧
    (speaker_set_dev_new [3] egOracle ⟨4, true, true, false, false, false⟩).selected
      = false := by
  have h := c2_speaker_set_selection { egBase with devices :=
      [⟨3, false, true, false, false, true⟩, ⟨4, true, true, false, false, false⟩] }
      [3] egOracle (by decide) (Or.inl (by decide))
  refine ⟨?_, ?_, ?_⟩
  · rw [h.1]
    decide
  · exact h.2.1 ⟨3, false, true, false, false, true⟩ (by decide) (by decide)
      (Or.inl rfl)
  · exact h.2.2 ⟨4, true, true, false, false, false⟩ (by decide)

theorem getD_set_self :
    ∀ (l : List SourceItem) (i : Nat) (a d : SourceItem),
      i < l.length → (l.set i a).getD i d = a := by
  intro l
  induction l with
  | nil => intro i a d h; exact absurd h (by simp)
  | cons x xs ih =>
    intro i a d h
    cases i with
    | zero => rfl
    | succ n => exact ih n a d (by simpa using h)

theorem getItem_modItem_self (st : Engine) (k : Nat) (f : SourceItem → SourceItem)
    (h : k < st.items.length) :
    getItem (modItem st k f) k = f (getItem st k) := by
  unfold getItem modItem setItem
  exact getD_set_self st.items k (f (st.items.getD k default)) default h

theorem modItem_items_length (st : Engine) (k : Nat) (f : SourceItem → SourceItem) :
    (modItem st k f).items.length = st.items.length := by
  unfold modItem setItem
  simp

theorem getItem_modItem_self2 (stA stB : Engine) (k : Nat)
    (f g : SourceItem → SourceItem)
    (hB : stB.items = (modItem (modItem stA k f) k g).items)
    (h : k < stA.items.length) :
    getItem stB k = g (f (getItem stA k)) := by
  unfold getItem
  rw [hB]
  have h1 : k < (modItem stA k f).items.length := by
    rw [modItem_items_length]; exact h
  show ((modItem (modItem stA k f) k g).items.getD k default) = _
  have e1 : (modItem (modItem stA k f) k g).items.getD k default =
      g (getItem (modItem stA k f) k) :=
    getItem_modItem_self (modItem stA k f) k g h1
  rw [e1, getItem_modItem_self stA k f h]
  rfl

/-- C7: for every current item (`cur_playing` if set, else `cur_streaming`)
and every seek for which `transcode_seek` succeeds returning the
actually-seeked position `p` ms, the seek bottom half sets the item's
`stream_start` to `last_rtptime + PACKET_SAMPLES - p*44100/1000`, its
`output_start` to `last_rtptime + PACKET_SAMPLES`, makes it
`cur_streaming`, and clears `cur_playing`. -/
theorem c7_seek_bh_restage (st : Engine) (ms : Nat) (o : Oracles) (k p : Nat)
    (h1 : play_chain_start st = some k)
    (h2 : o.seekMs ms = some p)
    (h3 : k < st.items.length)
    (h4 : p * 44100 / 1000 ≤ st.lastRtptime + AIRTUNES_V2_PACKET_SAMPLES)
    (h5 : st.lastRtptime + AIRTUNES_V2_PACKET_SAMPLES < U64MOD) :
    ∃ st', playback_seek_bh st ms o = some (0, st') ∧
      (getItem st' k).streamStart =
        st.lastRtptime + AIRTUNES_V2_PACKET_SAMPLES - p * 44100 / 1000 ∧
      (getItem st' k).outputStart =
        st.lastRtptime + AIRTUNES_V2_PACKET_SAMPLES ∧
      st'.curStreaming = some k ∧ st'.curPlaying = none := by
  unfold playback_seek_bh
  rw [h1]
  simp only []
  rw [h2]
  refine ⟨_, rfl, ?_, ?_, rfl, rfl⟩
  · show (getItem (modItem (modItem st k (fun it => { it with endPos := 0 })) k
        (fun it => { it with
           streamStart := u64sub (u64 (st.lastRtptime + AIRTUNES_V2_PACKET_SAMPLES))
             (p * 44100 / 1000),
           outputStart := u64 (st.lastRtptime + AIRTUNES_V2_PACKET_SAMPLES) }))
        k).streamStart = _
    rw [getItem_modItem_self _ k _ (by rw [modItem_items_length]; exact h3)]
    show u64sub (u64 (st.lastRtptime + AIRTUNES_V2_PACKET_SAMPLES))
        (p * 44100 / 1000) = _
    rw [u64_eq_of_lt h5]
    exact u64sub_eq_sub h4 h5
  · show (getItem (modItem (modItem st k (fun it => { it with endPos := 0 })) k
        (fun it => { it with
           streamStart := u64sub (u64 (st.lastRtptime + AIRTUNES_V2_PACKET_SAMPLES))
             (p * 44100 / 1000),
           outputStart := u64 (st.lastRtptime + AIRTUNES_V2_PACKET_SAMPLES) }))
        k).outputStart = _
    rw [getItem_modItem_self _ k _ (by rw [modItem_items_length]; exact h3)]
    show u64 (st.lastRtptime + AIRTUNES_V2_PACKET_SAMPLES) = _
    exact u64_eq_of_lt h5

/-- C7 witness: seeking the playing fixture to 100 ms restages item 0 at
`100352 - 4410` with `output_start = 100352`. -/
theorem c7_seek_bh_restage_witness :
    ∃ st', playback_seek_bh egBase 100 egOracle = some (0, st') ∧
      (getItem st' 0).streamStart = 100000 + AIRTUNES_V2_PACKET_SAMPLES - 4410 ∧
      (getItem st' 0).outputStart = 100000 + AIRTUNES_V2_PACKET_SAMPLES ∧
      st'.curStreaming = some 0 ∧ st'.curPlaying = none :=
  c7_seek_bh_restage egBase 100 egOracle 0 100 rfl rfl (by decide) (by decide)
    (by decide)

/-- C6 counterexample: with `pb_pos = 0`, `pb_pos_stamp = (0 s, 999931500
ns)` and a successful clock reading of `(1 s, 0 ns)` — 68500 ns elapsed, 68
whole microseconds — the code computes `delta = 1000000 + (-999931500)/1000
= 69` µs by C truncating division and returns position 3, whereas
`pb_pos + floor(delta_us * 44100 / 1000000)` with `delta_us` the elapsed
time in (whole) microseconds gives 2. -/
theorem c6_counterexample :
    player_get_current_pos_clock 0 ⟨0, 999931500⟩ (some ⟨1, 0⟩) false =
      some (3, 0, ⟨0, 999931500⟩) ∧
    pos_clock_words 0 ⟨0, 999931500⟩ ⟨1, 0⟩ = 2 := by
  constructor
  · decide
  · decide

/-- C6 (amended): for every committed pair and successful monotonic reading
`ts` at or after the stamp (normalized timespecs, elapsed at most 10^17 ns
and `pb_pos` at most 10^18 so that no `uint64` wrap occurs), the Clock
source returns `pos = pb_pos + delta*44100/1000000` where `delta` is the C
computation `(ts.sec - stamp.sec)*10^6 + trunc((ts.nsec - stamp.nsec)/1000)`
(`pos_clock_delta`); `delta` equals the elapsed time in whole microseconds
when `ts.nsec ≥ stamp.nsec` and exceeds it by at most one otherwise, so the
claimed formula holds exactly in the former case; when the commit flag is
set the new pair `(pos, ts)` is installed; and the query fails only when
the clock read fails. -/
theorem c6_clock_position (pbPos : Nat) (stamp ts : Timespec) (commit : Bool)
    (hs0 : 0 ≤ stamp.sec)
    (hsn : 0 ≤ stamp.nsec) (hsn' : stamp.nsec < 1000000000)
    (htn : 0 ≤ ts.nsec) (htn' : ts.nsec < 1000000000)
    (hord : stamp.sec * 1000000000 + stamp.nsec ≤ ts.sec * 1000000000 + ts.nsec)
    (hel : ts.sec * 1000000000 + ts.nsec - (stamp.sec * 1000000000 + stamp.nsec) ≤
      100000000000000000)
    (hpb : pbPos ≤ 1000000000000000000) :
    player_get_current_pos_clock pbPos stamp (some ts) commit =
      some (pbPos + pos_clock_delta stamp ts * 44100 / 1000000,
            (if commit then pbPos + pos_clock_delta stamp ts * 44100 / 1000000
             else pbPos),
            (if commit then ts else stamp)) ∧
    ((ts.sec * 1000000000 + ts.nsec) -
      (stamp.sec * 1000000000 + stamp.nsec)).toNat / 1000 ≤
        pos_clock_delta stamp ts ∧
    pos_clock_delta stamp ts ≤
      ((ts.sec * 1000000000 + ts.nsec) -
        (stamp.sec * 1000000000 + stamp.nsec)).toNat / 1000 + 1 ∧
    (stamp.nsec ≤ ts.nsec →
      pbPos + pos_clock_delta stamp ts * 44100 / 1000000 =
        pos_clock_words pbPos stamp ts) ∧
    player_get_current_pos_clock pbPos stamp none commit = none := by
  have htd : Int.tdiv (ts.nsec - stamp.nsec) 1000 =
      if stamp.nsec ≤ ts.nsec then (ts.nsec - stamp.nsec) / 1000
      else -((stamp.nsec - ts.nsec) / 1000) := by
    by_cases hc : stamp.nsec ≤ ts.nsec
    · rw [if_pos hc]
      exact Int.tdiv_eq_ediv (by omega) (by norm_num)
    · rw [if_neg hc]
      have h1 : ts.nsec - stamp.nsec = -(stamp.nsec - ts.nsec) := by ring
      rw [h1, Int.neg_tdiv, Int.tdiv_eq_ediv (by omega) (by norm_num)]
  have hdel : pos_clock_delta stamp ts =
      ((ts.sec - stamp.sec) * 1000000 +
        (if stamp.nsec ≤ ts.nsec then (ts.nsec - stamp.nsec) / 1000
         else -((stamp.nsec - ts.nsec) / 1000))).toNat := by
    unfold pos_clock_delta
    rw [htd, Int.emod_eq_of_lt]
    · split <;> omega
    · show _ < ((U64MOD : Nat) : Int)
      unfold U64MOD
      split <;> omega
  have hb1 : ((ts.sec * 1000000000 + ts.nsec) -
      (stamp.sec * 1000000000 + stamp.nsec)).toNat / 1000 ≤
        pos_clock_delta stamp ts := by
    rw [hdel]
    split <;> omega
  have hb2 : pos_clock_delta stamp ts ≤
      ((ts.sec * 1000000000 + ts.nsec) -
        (stamp.sec * 1000000000 + stamp.nsec)).toNat / 1000 + 1 := by
    rw [hdel]
    split <;> omega
  have hb3 : stamp.nsec ≤ ts.nsec → pos_clock_delta stamp ts =
      ((ts.sec * 1000000000 + ts.nsec) -
        (stamp.sec * 1000000000 + stamp.nsec)).toNat / 1000 := by
    intro hc
    rw [hdel, if_pos hc]
    omega
  have hdb : pos_clock_delta stamp ts ≤ 100000000000001 := by
    have h9 : ((ts.sec * 1000000000 + ts.nsec) -
        (stamp.sec * 1000000000 + stamp.nsec)).toNat ≤ 100000000000000000 := by
      omega
    omega
  have hu1 : u64 (pos_clock_delta stamp ts * 44100) =
      pos_clock_delta stamp ts * 44100 := by
    apply u64_eq_of_lt
    unfold U64MOD
    omega
  have hu2 : u64 (pbPos + u64 (pos_clock_delta stamp ts * 44100) / 1000000) =
      pbPos + u64 (pos_clock_delta stamp ts * 44100) / 1000000 := by
    apply u64_eq_of_lt
    rw [hu1]
    unfold U64MOD
    omega
  refine ⟨?_, hb1, hb2, ?_, rfl⟩
  · unfold player_get_current_pos_clock
    simp only []
    rw [hu2, hu1]
    cases commit <;> simp
  · intro hc
    unfold pos_clock_words
    rw [hb3 hc]

/-- C6 witness: a 500 µs elapsed interval with commit advances `pb_pos`
from 1000 to 1022 (= 1000 + 500·44100/10^6) and installs the new stamp. -/
theorem c6_clock_position_witness :
    player_get_current_pos_clock 1000 ⟨5, 100⟩ (some ⟨5, 500100⟩) true =
      some (1022, 1022, ⟨5, 500100⟩) ∧
    pos_clock_delta ⟨5, 100⟩ ⟨5, 500100⟩ = 500 := by
  have h := c6_clock_position 1000 ⟨5, 100⟩ ⟨5, 500100⟩ true (by decide) (by decide)
    (by decide) (by decide) (by decide) (by decide) (by decide) (by decide)
  refine ⟨?_, by decide⟩
  rw [h.1]
  decide

theorem resume_round (m : Nat) :
    m * 1000 / 44100 * 44100 / 1000 ≤ m ∧
    m - m * 1000 / 44100 * 44100 / 1000 ≤ 45 := by
  have h1 := Nat.div_add_mod (m * 1000) 44100
  have h2 : m * 1000 % 44100 < 44100 := Nat.mod_lt _ (by norm_num)
  have h3 := Nat.div_add_mod (m * 1000 / 44100 * 44100) 1000
  have h4 : m * 1000 / 44100 * 44100 % 1000 < 1000 := Nat.mod_lt _ (by norm_num)
  omega

theorem map_streamStart_set :
    ∀ (l : List SourceItem) (i : Nat) (a : SourceItem),
      a.streamStart = (l.getD i default).streamStart →
      (l.set i a).map SourceItem.streamStart = l.map SourceItem.streamStart := by
  intro l
  induction l with
  | nil => intro i a h; rfl
  | cons x xs ih =>
    intro i a h
    cases i with
    | zero =>
      have h' : a.streamStart = x.streamStart := h
      simp [List.map_cons, h']
    | succ n =>
      have h' : a.streamStart = (xs.getD n default).streamStart := h
      simp only [List.set_cons_succ, List.map_cons]
      rw [ih n a h']

theorem source_stop_go_streamStart :
    ∀ (fuel : Nat) (ps : Option Nat) (st : Engine),
      (source_stop_go fuel st ps).items.map SourceItem.streamStart =
        st.items.map SourceItem.streamStart := by
  intro fuel
  induction fuel with
  | zero => intro ps st; rfl
  | succ n ih =>
    intro ps st
    cases ps with
    | none => rfl
    | some k =>
      rw [source_stop_go]
      rw [ih]
      exact map_streamStart_set st.items k _ rfl

theorem source_stop_streamStart (st : Engine) (ps : Option Nat) :
    (source_stop st ps).items.map SourceItem.streamStart =
      st.items.map SourceItem.streamStart :=
  source_stop_go_streamStart _ ps st

theorem status_update_items (s : PlayState) (st : Engine) :
    (status_update s st).items = st.items := by
  unfold status_update
  simp only []
  split <;> rfl

theorem playback_stop_streamStart (st : Engine) :
    (playback_stop st).2.items.map SourceItem.streamStart =
      st.items.map SourceItem.streamStart := by
  unfold playback_stop
  rw [status_update_items]
  show (source_stop _ _).items.map _ = _
  rw [source_stop_streamStart]
  split <;> rfl

theorem playback_start_bh_streamStart (st : Engine) (o : Oracles) :
    (playback_start_bh st o).2.items.map SourceItem.streamStart =
      st.items.map SourceItem.streamStart := by
  unfold playback_start_bh
  repeat' split
  all_goals first
    | rfl
    | rw [playback_stop_streamStart]
    | rw [status_update_items]

theorem playback_start_tail_streamStart (st : Engine) (o : Oracles) (idx : Option Nat)
    (r : Int) (st2 : Engine) (ix : Option Nat)
    (h : playback_start_tail st o idx = some (r, st2, ix)) :
    st2.items.map SourceItem.streamStart = st.items.map SourceItem.streamStart := by
  unfold playback_start_tail at h
  simp only [] at h
  split at h
  · -- local sink failed to open: state returned unchanged
    simp only [Option.some.injEq, Prod.ext_iff] at h
    rw [← h.2.1]
  case h_2 st1 heq =>
    have hitems : st1.items = st.items := by
      split at heq
      · split at heq
        · simp only [Option.some.injEq] at heq
          rw [← heq]
        · exact Option.noConfusion heq
      · simp only [Option.some.injEq] at heq
        rw [← heq]
    split at h
    · simp only [Option.some.injEq, Prod.ext_iff] at h
      rw [← h.2.1]
      show st1.items.map _ = _
      rw [hitems]
    · split at h
      · simp only [Option.some.injEq, Prod.ext_iff] at h
        rw [← h.2.1]
        show st1.items.map _ = _
        rw [hitems]
      · simp only [Option.some.injEq, Prod.ext_iff] at h
        rw [← h.2.1]
        rw [playback_start_bh_streamStart]
        show st1.items.map _ = _
        rw [hitems]

set_option maxRecDepth 4000 in
theorem playback_start_none_streamStart (st : Engine) (o : Oracles) (k : Nat)
    (hcs : st.curStreaming = some k) (r : Int) (st2 : Engine) (ix : Option Nat)
    (h : playback_start st none o = some (r, st2, ix)) :
    st2.items.map SourceItem.streamStart = st.items.map SourceItem.streamStart := by
  unfold playback_start at h
  split at h
  · simp only [Option.some.injEq, Prod.ext_iff] at h
    rw [← h.2.1]
  · split at h
    · simp only [Option.some.injEq, Prod.ext_iff] at h
      rw [← h.2.1, status_update_items]
    · simp only [] at h
      split at h
      next x heq =>
        exact playback_start_tail_streamStart
          { st with pbPos := u64sub (u64 (st.lastRtptime + AIRTUNES_V2_PACKET_SAMPLES)) 88200 }
          o none r st2 ix h
      next heq =>
        rw [hcs] at heq
        exact Option.noConfusion heq

theorem getItem_status_update (s : PlayState) (st : Engine) (k : Nat) :
    getItem (status_update s st) k = getItem st k := by
  unfold getItem
  rw [status_update_items]

theorem status_update_cursors (s : PlayState) (st : Engine) :
    (status_update s st).curStreaming = st.curStreaming ∧
    (status_update s st).curPlaying = st.curPlaying ∧
    (status_update s st).lastRtptime = st.lastRtptime := by
  unfold status_update
  simp only []
  split <;> exact ⟨rfl, rfl, rfl⟩

theorem getItem_set_cursors (st : Engine) (a b : Option Nat) (k : Nat) :
    getItem { st with curStreaming := a, curPlaying := b } k = getItem st k := rfl

set_option maxHeartbeats 1600000 in
theorem playback_pause_front (st : Engine) (o : Oracles) (pos k : Nat)
    (bh : Engine → Oracles → Option (Int × Engine))
    (h1 : source_check st o = (pos, st))
    (hpos : pos ≠ 0)
    (hps : st.playerState = PlayState.playing)
    (hcp : play_chain_start st = some k)
    (hk : k < st.items.length)
    (hla : st.laudioStatus = LaudioState.closed)
    (hpn : (getItem st k).playNext = none)
    (hflush : o.flushPending = 0) :
    playback_pause st o bh = bh (pause_front_mid st o pos k) o := by
  unfold playback_pause
  rw [h1]
  simp only []
  split
  · next h => exact absurd (show pos = 0 from h) hpos
  · split
    · next h =>
        have h' : st.playerState = PlayState.stopped := h
        rw [hps] at h'
        exact PlayState.noConfusion h'
    · split
      · next heq =>
          have heq' : play_chain_start st = none := heq
          rw [hcp] at heq'
          exact Option.noConfusion heq'
      · next k' heq =>
          have heq' : play_chain_start st = some k' := heq
          rw [hcp] at heq'
          injection heq' with hkk
          subst hkk
          split
          · next h => exact absurd hla h
          · have hpn2 : (getItem { modItem st k (fun it => { it with endPos := pos }) with
                raopPending := o.flushPending } k).playNext = none := by
              show (getItem (modItem st k (fun it => { it with endPos := pos }))
                  k).playNext = none
              rw [getItem_modItem_self st k _ hk]
              show (getItem st k).playNext = none
              exact hpn
            rw [hpn2]
            simp only []
            split
            · next h =>
                have h' : o.flushPending > 0 := h
                omega
            · rfl

theorem playback_pause_bh_mid (st : Engine) (o : Oracles) (pos k p : Nat)
    (hk : k < st.items.length)
    (hss : (getItem st k).streamStart ≤ pos)
    (hposlt : pos < U64MOD)
    (hseek : o.seekMs ((pos - (getItem st k).streamStart) * 1000 / 44100) = some p)
    (h4 : p * 44100 / 1000 ≤ st.lastRtptime + AIRTUNES_V2_PACKET_SAMPLES)
    (h5 : st.lastRtptime + AIRTUNES_V2_PACKET_SAMPLES < U64MOD) :
    ∃ st', playback_pause_bh (pause_front_mid st o pos k) o = some (0, st') ∧
      st'.curStreaming = some k ∧ st'.curPlaying = none ∧
      st'.lastRtptime = st.lastRtptime ∧
      (getItem st' k).streamStart =
        st.lastRtptime + AIRTUNES_V2_PACKET_SAMPLES - p * 44100 / 1000 ∧
      (getItem st' k).outputStart = st.lastRtptime + AIRTUNES_V2_PACKET_SAMPLES := by
  have hkM : k < (pause_front_mid st o pos k).items.length := by
    have e : (pause_front_mid st o pos k).items.length = st.items.length := by
      show ((modItem (modItem st k (fun it => { it with endPos := pos })) k
        (fun it => { it with playNext := none })).items).length = st.items.length
      rw [modItem_items_length, modItem_items_length]
    rw [e]
    exact hk
  have hit : getItem (pause_front_mid st o pos k) k =
      { getItem st k with endPos := pos, playNext := none } :=
    getItem_modItem_self2 st (pause_front_mid st o pos k) k
      (fun it => { it with endPos := pos }) (fun it => { it with playNext := none })
      rfl hk
  have hendPos : (getItem (pause_front_mid st o pos k) k).endPos = pos := by
    rw [hit]
  have hssEq : (getItem (pause_front_mid st o pos k) k).streamStart =
      (getItem st k).streamStart := by
    rw [hit]
  unfold playback_pause_bh
  rw [show play_chain_start (pause_front_mid st o pos k) = some k from rfl]
  simp only []
  rw [hendPos, hssEq, u64sub_eq_sub hss hposlt, hseek]
  simp only []
  refine ⟨_, rfl, ?_, ?_, ?_, ?_, ?_⟩
  · rw [(status_update_cursors _ _).1]
  · rw [(status_update_cursors _ _).2.1]
  · rw [(status_update_cursors _ _).2.2]
    rfl
  · rw [getItem_status_update, getItem_set_cursors,
        getItem_modItem_self _ k _ (by rw [modItem_items_length]; exact hkM)]
    show u64sub (u64 (st.lastRtptime + AIRTUNES_V2_PACKET_SAMPLES))
        (p * 44100 / 1000) = _
    rw [u64_eq_of_lt h5]
    exact u64sub_eq_sub h4 h5
  · rw [getItem_status_update, getItem_set_cursors,
        getItem_modItem_self _ k _ (by rw [modItem_items_length]; exact hkM)]
    show u64 (st.lastRtptime + AIRTUNES_V2_PACKET_SAMPLES) = _
    exact u64_eq_of_lt h5

/-- C5 counterexample: in the paused-at-60000 fixture the pause captures a
10000-sample offset into item 0 (`end - stream_start = 60000 - 50000`), but
the pause bottom half reseeks through millisecond granularity —
`10000·1000/44100 = 226 ms`, restaged as `226·44100/1000 = 9966` samples —
so the item resumes 34 samples before the paused index, refuting exact
resume as claimed. -/
theorem c5_counterexample :
    (playback_pause c5Engine egOracle playback_pause_bh).map
        (fun pr => (pr.1, pr.2.curStreaming,
          u64sub (u64 (pr.2.lastRtptime + AIRTUNES_V2_PACKET_SAMPLES))
                 (getItem pr.2 0).streamStart)) = some (0, some 0, 9966) ∧
    (source_check c5Engine egOracle).1 = 60000 ∧
    u64sub (source_check c5Engine egOracle).1 (getItem c5Engine 0).streamStart =
      10000 ∧
    (9966 : Nat) ≠ 10000 := by
  decide

/-- C5 (amended): for every playing engine whose committed position `pos ≠ 0`
is captured by `source_check` with current item `k` (local sink closed, no
scheduled successor, no pending flushes, no `uint64` wrap in range),
`playback_pause` completes synchronously with 0 and restages item `k` as
`cur_streaming` at `stream_start = last_rtptime + PACKET_SAMPLES −
p·44100/1000`, where `p` is the millisecond position actually reached by the
transcoder seek — so the resumed offset is `p·44100/1000`, not the captured
offset `pos − stream_start`: when the seek lands exactly on the requested
millisecond `(pos − stream_start)·1000/44100`, the resumed offset
undershoots the captured offset by up to 45 samples (not zero, as the spec
claims); an immediately following `playback_start` preserves every item's
`stream_start`, so resumption indeed uses the pause-time restaging. -/
theorem c5_pause_resume (st : Engine) (o : Oracles) (pos k p : Nat)
    (h1 : source_check st o = (pos, st))
    (hpos : pos ≠ 0)
    (hps : st.playerState = PlayState.playing)
    (hcp : play_chain_start st = some k)
    (hk : k < st.items.length)
    (hla : st.laudioStatus = LaudioState.closed)
    (hpn : (getItem st k).playNext = none)
    (hflush : o.flushPending = 0)
    (hss : (getItem st k).streamStart ≤ pos)
    (hposlt : pos < U64MOD)
    (hseek : o.seekMs ((pos - (getItem st k).streamStart) * 1000 / 44100) = some p)
    (h4 : p * 44100 / 1000 ≤ st.lastRtptime + AIRTUNES_V2_PACKET_SAMPLES)
    (h5 : st.lastRtptime + AIRTUNES_V2_PACKET_SAMPLES < U64MOD) :
    ∃ st', playback_pause st o playback_pause_bh = some (0, st') ∧
      st'.curStreaming = some k ∧ st'.curPlaying = none ∧
      st'.lastRtptime = st.lastRtptime ∧
      (getItem st' k).streamStart =
        st.lastRtptime + AIRTUNES_V2_PACKET_SAMPLES - p * 44100 / 1000 ∧
      (getItem st' k).outputStart =
        st.lastRtptime + AIRTUNES_V2_PACKET_SAMPLES ∧
      (p = (pos - (getItem st k).streamStart) * 1000 / 44100 →
        p * 44100 / 1000 ≤ pos - (getItem st k).streamStart ∧
        pos - (getItem st k).streamStart - p * 44100 / 1000 ≤ 45) ∧
      (∀ r st2 ix, playback_start st' none o = some (r, st2, ix) →
        st2.items.map SourceItem.streamStart =
          st'.items.map SourceItem.streamStart) := by
  obtain ⟨st', hbh, hcs', hcp', hlr, hssF, hosF⟩ :=
    playback_pause_bh_mid st o pos k p hk hss hposlt hseek h4 h5
  refine ⟨st', ?_, hcs', hcp', hlr, hssF, hosF, ?_, ?_⟩
  · rw [playback_pause_front st o pos k playback_pause_bh h1 hpos hps hcp hk hla
        hpn hflush]
    exact hbh
  · intro hp
    rw [hp]
    exact resume_round _
  · intro r st2 ix h
    exact playback_start_none_streamStart st' o k hcs' r st2 ix h

/-- C5 witness: the paused-at-60000 fixture pauses synchronously with 0 and
restages item 0 at `100352 − 9966`, the transcoder having seeked to 226 ms;
the rounding bound and the `playback_start` frame property instantiate
concretely. -/
theorem c5_pause_resume_witness :
    ∃ st', playback_pause c5Engine egOracle playback_pause_bh = some (0, st') ∧
      st'.curStreaming = some 0 ∧ st'.curPlaying = none ∧
      st'.lastRtptime = c5Engine.lastRtptime ∧
      (getItem st' 0).streamStart =
        c5Engine.lastRtptime + AIRTUNES_V2_PACKET_SAMPLES - 226 * 44100 / 1000 ∧
      (getItem st' 0).outputStart =
        c5Engine.lastRtptime + AIRTUNES_V2_PACKET_SAMPLES ∧
      (226 = (60000 - (getItem c5Engine 0).streamStart) * 1000 / 44100 →
        226 * 44100 / 1000 ≤ 60000 - (getItem c5Engine 0).streamStart ∧
        60000 - (getItem c5Engine 0).streamStart - 226 * 44100 / 1000 ≤ 45) ∧
      (∀ r st2 ix, playback_start st' none egOracle = some (r, st2, ix) →
        st2.items.map SourceItem.streamStart =
          st'.items.map SourceItem.streamStart) :=
  c5_pause_resume c5Engine egOracle 60000 0 226 (by decide) (by decide) rfl rfl
    (by decide) rfl rfl rfl (by decide) (by decide) (by decide) (by decide)
    (by decide)

end Daapd
